import Mathlib

/-!
Shallow embedding of `src/dh_paid_feed_generator.py` (Dragonholic paid-chapter
RSS aggregator).  Python strings are Lean `String`, `datetime` values are
microseconds since the Unix epoch (`Int`, always UTC), `timedelta`s are
microsecond counts, fallible code returns `Except Unit` (`Except.error ()`
models an uncaught Python exception), and parsed HTML is modelled by explicit
structures holding exactly the pieces of the DOM the script reads.
Numeric sort-key components (`int` / `float` in Python) are idealised as `ℚ`.
-/

/-! ### Python string primitives used by the script -/

/-- Model of Python `str.strip()` (also `get_text(strip=True)` trimming):
drop whitespace from both ends. -/
def pyStrip (s : String) : String :=
  String.mk (((s.data.dropWhile Char.isWhitespace).reverse.dropWhile Char.isWhitespace).reverse)

/-- Model of Python `str.lower()` (ASCII case folding suffices for the
month names and unit keywords the script compares). -/
def pyLower (s : String) : String :=
  String.mk (s.data.map Char.toLower)

/-- Helper for `pySplitWs`: accumulate the current word (reversed). -/
def splitWsAux : List Char → List Char → List String
  | [], cur => if cur.isEmpty then [] else [String.mk cur.reverse]
  | c :: cs, cur =>
      if c.isWhitespace then
        if cur.isEmpty then splitWsAux cs [] else String.mk cur.reverse :: splitWsAux cs []
      else splitWsAux cs (c :: cur)

/-- Model of Python `str.split()` with no argument: split on whitespace
runs, dropping empty pieces. -/
def pySplitWs (s : String) : List String :=
  splitWsAux s.data []

/-- Model of Python `str.isdigit()` on the ASCII strings the script sees:
nonempty and all decimal digits. -/
def pyIsDigit (s : String) : Bool :=
  !s.data.isEmpty && s.data.all Char.isDigit

/-- Numeric value of a list of decimal digit characters (Python `int(...)`). -/
def digitsVal (l : List Char) : Nat :=
  l.foldl (fun n c => 10 * n + (c.toNat - 48)) 0

/-- Model of Python `int(s)` for a string that passed `isdigit`. -/
def pyInt (s : String) : Nat :=
  digitsVal s.data

/-- Infix test on character lists: `p` occurs contiguously in the list. -/
def listInfixOf (p : List Char) : List Char → Bool
  | [] => p.isEmpty
  | c :: ls => p.isPrefixOf (c :: ls) || listInfixOf p ls

/-- Model of the substring test `needle in haystack` on Python strings. -/
def pyContains (haystack needle : String) : Bool :=
  listInfixOf needle.data haystack.data

/-- Helper for `collapseWs`: `inRun` records whether we are inside a
whitespace run that has already emitted its single replacement space. -/
def collapseWsAux : Bool → List Char → List Char
  | _, [] => []
  | inRun, c :: cs =>
      if c.isWhitespace then
        if inRun then collapseWsAux true cs else ' ' :: collapseWsAux true cs
      else c :: collapseWsAux false cs

/-- Model of Python `re.sub(r'\s+', ' ', s)`: collapse every whitespace run
to a single space. -/
def collapseWs (s : String) : String :=
  String.mk (collapseWsAux false s.data)

/-! ### The numeric-token scanner `re.findall(r'\d+(?:\.\d+)?', s)`

State machine over the characters: phase 0 = outside a match, phase 1 =
inside the integer part, phase 2 = just consumed the integer part and saw a
`.` whose inclusion is still pending on a following digit, phase 3 = inside
the fractional part.  `revTok` holds the current token reversed. -/

def numScanAux : List Char → Nat → List Char → List String → List String
  | [], phase, revTok, acc =>
      if phase = 0 then acc else acc ++ [String.mk revTok.reverse]
  | c :: cs, 0, _, acc =>
      if c.isDigit then numScanAux cs 1 [c] acc else numScanAux cs 0 [] acc
  | c :: cs, 1, revTok, acc =>
      if c.isDigit then numScanAux cs 1 (c :: revTok) acc
      else if c = '.' then numScanAux cs 2 revTok acc
      else numScanAux cs 0 [] (acc ++ [String.mk revTok.reverse])
  | c :: cs, 2, revTok, acc =>
      if c.isDigit then numScanAux cs 3 (c :: '.' :: revTok) acc
      else numScanAux cs 0 [] (acc ++ [String.mk revTok.reverse])
  | c :: cs, _ + 3, revTok, acc =>
      if c.isDigit then numScanAux cs 3 (c :: revTok) acc
      else numScanAux cs 0 [] (acc ++ [String.mk revTok.reverse])

/-- Model of `re.findall(r'\d+(?:\.\d+)?', s)`: every maximal numeric token
of `s`, in order, where a token is digits optionally followed by a dot and
more digits. -/
def findNums (s : String) : List String :=
  numScanAux s.data 0 [] []

/-- Model of `re.search(r'(\d+(?:\.\d+)?)', s)`, group 1: the leftmost
numeric token, if any (this is the head of the `findall` list). -/
def firstNum (s : String) : Option String :=
  (findNums s).head?

/-- Model of `re.match(r'\s*(\d+(?:\.\d+)?)', s)`, group 1: a numeric token
at the start of the string after optional whitespace. -/
def leadingNum (s : String) : Option String :=
  let l := s.data.dropWhile Char.isWhitespace
  let ds := l.takeWhile Char.isDigit
  if ds.isEmpty then none
  else
    match l.dropWhile Char.isDigit with
    | '.' :: r2 =>
        let fs := r2.takeWhile Char.isDigit
        if fs.isEmpty then some (String.mk ds) else some (String.mk (ds ++ '.' :: fs))
    | _ => some (String.mk ds)

/-- Numeric value of one token produced by `findNums`: Python takes
`float(n) if '.' in n else int(n)`; both are idealised as the exact
rational value of the decimal literal. -/
def pyNumVal (tok : String) : ℚ :=
  let ip := tok.data.takeWhile (fun c => c ≠ '.')
  match tok.data.dropWhile (fun c => c ≠ '.') with
  | '.' :: fr => (digitsVal ip : ℚ) + (digitsVal fr : ℚ) / ((10 : ℚ) ^ fr.length)
  | _ => (digitsVal ip : ℚ)

/-! ### Calendar arithmetic (the parts of `datetime` the script uses) -/

/-- Days from 1970-01-01 to the civil date `y-m-d` (proleptic Gregorian,
Hinnant's `days_from_civil`). -/
def daysFromCivil (y m d : Int) : Int :=
  let y2 := if m ≤ 2 then y - 1 else y
  let era := Int.fdiv y2 400
  let yoe := y2 - era * 400
  let mp := if 2 < m then m - 3 else m + 9
  let doy := Int.fdiv (153 * mp + 2) 5 + d - 1
  let doe := yoe * 365 + Int.fdiv yoe 4 - Int.fdiv yoe 100 + doy
  era * 146097 + doe - 719468

/-- Civil date `(y, m, d)` of the day `z` days after 1970-01-01 (Hinnant's
`civil_from_days`). -/
def civilFromDays (z : Int) : Int × Nat × Nat :=
  let z2 := z + 719468
  let era := Int.fdiv z2 146097
  let doe := (z2 - era * 146097).toNat
  let yoe := (doe - doe / 1460 + doe / 36524 - doe / 146096) / 365
  let y := era * 400 + yoe
  let doy := doe - (365 * yoe + yoe / 4 - yoe / 100)
  let mp := (5 * doy + 2) / 153
  let d := doy - (153 * mp + 2) / 5 + 1
  let m := if mp < 10 then mp + 3 else mp - 9
  (if m ≤ 2 then y + 1 else y, m, d)

/-- Leap-year test used by `datetime`'s day-of-month validation. -/
def isLeap (y : Nat) : Bool :=
  y % 4 = 0 && (y % 100 ≠ 0 || y % 400 = 0)

/-- Days in month `m` of year `y`. -/
def daysInMonth (y m : Nat) : Nat :=
  if m = 2 then (if isLeap y then 29 else 28)
  else if m = 4 ∨ m = 6 ∨ m = 9 ∨ m = 11 then 30
  else 31

/-- Lowercased English month names with their numbers, as `strptime`'s `%B`
matches them (case-insensitively; no name is a prefix of another). -/
def monthsLower : List (String × Nat) :=
  [("january", 1), ("february", 2), ("march", 3), ("april", 4), ("may", 5),
   ("june", 6), ("july", 7), ("august", 8), ("september", 9), ("october", 10),
   ("november", 11), ("december", 12)]

/-- Day-of-month candidates for `strptime`'s `%d`, whose regex is
`(3[01]|[12]\d|0[1-9]|[1-9])`: the two-digit alternatives are tried first,
then the one-digit one (regex backtracking), so both candidates are
returned in that order together with the remaining input. -/
def dayCands : List Char → List (Nat × List Char)
  | a :: b :: rest =>
      (if a.isDigit && b.isDigit &&
          ((a = '3' && (b = '0' || b = '1')) || a = '1' || a = '2' ||
           (a = '0' && b ≠ '0'))
       then [((a.toNat - 48) * 10 + (b.toNat - 48), rest)] else [])
      ++ (if a.isDigit && a ≠ '0' then [(a.toNat - 48, b :: rest)] else [])
  | [a] => if a.isDigit && a ≠ '0' then [(a.toNat - 48, [])] else []
  | [] => []

/-- Model of
`datetime.strptime(s, "%B %d, %Y").replace(tzinfo=timezone.utc)` from
line 46 of the source: full month name (case-insensitive), whitespace,
day (1–2 digits), literal comma, whitespace, 4-digit year, end of input;
the day is validated against the month length and the year against
`datetime.MINYEAR = 1`.  Returns the UTC midnight timestamp in
microseconds, or `none` when the parse raises `ValueError`. -/
def strptimeBDY (s : String) : Option Int :=
  let l := s.data.map Char.toLower
  match monthsLower.findSome?
      (fun p => if p.1.data.isPrefixOf l then some (p.2, l.drop p.1.data.length) else none) with
  | none => none
  | some (m, rest) =>
    if (rest.takeWhile Char.isWhitespace).isEmpty then none
    else
      let r1 := rest.dropWhile Char.isWhitespace
      (dayCands r1).findSome? (fun dc =>
        match dc.2 with
        | ',' :: r3 =>
          if (r3.takeWhile Char.isWhitespace).isEmpty then none
          else
            match r3.dropWhile Char.isWhitespace with
            | [c1, c2, c3, c4] =>
              if c1.isDigit && c2.isDigit && c3.isDigit && c4.isDigit then
                let y := digitsVal [c1, c2, c3, c4]
                if 1 ≤ y && dc.1 ≤ daysInMonth y m then
                  some (daysFromCivil (y : Int) (m : Int) (dc.1 : Int) * 86400000000)
                else none
              else none
            | _ => none
        | _ => none)

/-- Microseconds in one minute, hour, day and week (the `timedelta`s the
script builds). -/
def usPerMinute : Int := 60000000

/-- Microseconds in one hour. -/
def usPerHour : Int := 3600000000

/-- Microseconds in one day. -/
def usPerDay : Int := 86400000000

/-- Microseconds in one week (`timedelta(weeks=1)` = 7 days). -/
def usPerWeek : Int := 604800000000

/-- Abbreviated weekday names in `strftime`'s `%a` order, indexed with
0 = Sunday (1970-01-01 was a Thursday). -/
def weekdayAbbrev (w : Nat) : String :=
  ["Sun", "Mon", "Tue", "Wed", "Thu", "Fri", "Sat"].getD w ""

/-- Abbreviated month names for `strftime`'s `%b`. -/
def monthAbbrev (m : Nat) : String :=
  ["Jan", "Feb", "Mar", "Apr", "May", "Jun", "Jul", "Aug", "Sep", "Oct",
   "Nov", "Dec"].getD (m - 1) ""

/-- Zero-padded two-digit decimal rendering. -/
def pad2 (n : Nat) : String :=
  if n < 10 then "0" ++ toString n else toString n

/-- Model of `dt.strftime("%a, %d %b %Y %H:%M:%S +0000")` on a UTC
timestamp given in microseconds since the epoch (years in the feed are
four digits, so `%Y` needs no padding). -/
def strftimeRFC822 (ts : Int) : String :=
  let sec := Int.fdiv ts 1000000
  let z := Int.fdiv sec 86400
  let sod := (sec - 86400 * z).toNat
  let ymd := civilFromDays z
  let wd := (Int.emod (z + 4) 7).toNat
  weekdayAbbrev wd ++ ", " ++ pad2 ymd.2.2 ++ " " ++ monthAbbrev ymd.2.1 ++ " " ++
    toString ymd.1 ++ " " ++ pad2 (sod / 3600) ++ ":" ++ pad2 (sod % 3600 / 60) ++ ":" ++
    pad2 (sod % 60) ++ " +0000"

/-! ### The script's date helpers (`dh_paid_feed_generator.py` lines 41–73) -/

/-- Model of lines 45–62 of the source, the date-string normalizer applied
to the text of a chapter's release-date element (`now` is the single
injected current time; the script calls `datetime.now` at each of these
points).  Tries the absolute `"%B %d, %Y"` parse; on failure lowercases
and whitespace-splits the string, and when the first token is all digits
shifts `now` by the second token's matched unit.  `parts[1]` raises
`IndexError` when the first token is all digits but there is no second
token — modelled by `Except.error ()`.  (Named `DH.normalize` after the
spec's `normalize(text, now)`; plain `normalize` is taken by Mathlib.) -/
def DH.normalize (dateStr : String) (now : Int) : Except Unit Int :=
  match strptimeBDY dateStr with
  | some ts => .ok ts
  | none =>
    match pySplitWs (pyLower dateStr) with
    | [] => .ok now
    | p0 :: rest =>
      if pyIsDigit p0 then
        match rest with
        | [] => .error ()
        | unit :: _ =>
          let num : Int := (pyInt p0 : Int)
          if pyContains unit "minute" then .ok (now - num * usPerMinute)
          else if pyContains unit "hour" then .ok (now - num * usPerHour)
          else if pyContains unit "day" then .ok (now - num * usPerDay)
          else if pyContains unit "week" then .ok (now - num * usPerWeek)
          else .ok now
      else .ok now

/-- Model of `chapter_num` (lines 65–69): the tuple of all numeric tokens
of the chapter label, `(0,)` when there is none. -/
def chapter_num (chaptername : String) : List ℚ :=
  let nums := findNums chaptername
  if nums.isEmpty then [0] else nums.map pyNumVal

/-- Model of `normalize_date` (lines 72–73), `dt.replace(microsecond=0)`:
truncate the timestamp to whole seconds. -/
def normalize_date (ts : Int) : Int :=
  1000000 * Int.fdiv ts 1000000

/-- Split a character list at the first occurrence of the (nonempty)
separator `sep`, returning the parts before and after it, or `none` when
`sep` does not occur (Python `s.split(sep, 1)`). -/
def splitFirstOn (sep : List Char) : List Char → Option (List Char × List Char)
  | [] => none
  | c :: cs =>
      if sep.isPrefixOf (c :: cs) then some ([], (c :: cs).drop sep.length)
      else
        match splitFirstOn sep cs with
        | some pq => some (c :: pq.1, pq.2)
        | none => none

/-- Model of `split_title` (lines 34–38): split on the first `" - "`,
stripping both parts; no separator means the whole (stripped) text is the
label and the extension is empty. -/
def split_title (full_title : String) : String × String :=
  match splitFirstOn " - ".data full_title.data with
  | some pq => (pyStrip (String.mk pq.1), pyStrip (String.mk pq.2))
  | none => (pyStrip full_title, "")

/-! ### DOM model

Structures holding exactly the pieces of a listing page that
`dh_paid_feed_generator.py` reads from the BeautifulSoup tree. -/

/-- An `<a>` element inside a chapter node: `text` is
`a_tag.get_text(" ", strip=True)` and `href` is the raw `href` attribute
(`none` when the attribute is absent). -/
structure ATag where
  text : String
  href : Option String
  deriving DecidableEq

/-- One `li.wp-manga-chapter` node.  `classes` is the node's class list;
`dateText` is the stripped text of the `<i>` inside
`span.chapter-release-date` (`none` when the span or the `<i>` is
missing); `a` is the first `<a>` descendant; `coin` is the stripped text
of `span.coin` when present. -/
structure ChapLi where
  classes : List String
  dateText : Option String
  a : Option ATag
  coin : Option String
  deriving DecidableEq

/-- One volume group (`li.parent.has-child`) of a volume-grouped listing:
`label` is `a.has-child`'s stripped text, `chapters` the nodes of its
`ul.sub-chap-list`. -/
structure VolGroup where
  label : String
  chapters : List ChapLi
  deriving DecidableEq

/-- A parsed listing page: `descDiv` is the raw inner HTML of
`div.description-summary` after the read-more blocks are decomposed
(`none` when the div is absent); `firstChap` is the document-order first
`li.wp-manga-chapter` that `soup.find` returns; `volContainer` is the
`ul.main.version-chap.volumns` container, `noVol` the
`ul.main.version-chap.no-volumn` one. -/
structure Page where
  descDiv : Option String
  firstChap : Option ChapLi
  volContainer : Option (List VolGroup)
  noVol : Option (List ChapLi)
  deriving DecidableEq

/-- The network: each URL either yields a parsed page or a fetch failure
(`fetch_page` raising on timeout / non-2xx / transport error). -/
def World : Type := String → Except Unit Page

/-- Model of `clean_description` (lines 26–31) applied to the contents of
the description div with read-more blocks already dropped (the
`decompose` step is part of the DOM model): collapse whitespace runs to
single spaces and strip. -/
def clean_description (raw_desc : String) : String :=
  pyStrip (collapseWs raw_desc)

/-- Model of `extract_pubdate_from_soup` (lines 41–62): when the release
date element is present its text goes through `DH.normalize`; when it is
missing the current time is returned. -/
def extract_pubdate_from_soup (chap : ChapLi) (now : Int) : Except Unit Int :=
  match chap.dateText with
  | some dateStr => DH.normalize dateStr now
  | none => .ok now

/-! ### The extractor (`scrape_paid_chapters_async`, lines 95–179) -/

/-- One ChapterUpdate record as appended to `paid_chapters`
(lines 134–143 and 168–177). -/
structure Chapter where
  volume : String
  chaptername : String
  nameextend : String
  link : String
  description : String
  pubDate : Int
  guid : String
  coin : String
  deriving DecidableEq

/-- Model of the per-node guid resolution (lines 132 and 166): the text
after `"data-chapter-"` in the first class starting with that marker
(Python `c.split("data-chapter-")[1]`, the segment up to the next
occurrence), else `chap_id`. -/
def guid_from_classes (classes : List String) (chap_id : String) : String :=
  match classes.find? (fun c => "data-chapter-".data.isPrefixOf c.data) with
  | some c =>
      match splitFirstOn "data-chapter-".data (c.data.drop "data-chapter-".length) with
      | some pq => String.mk pq.1
      | none => String.mk (c.data.drop "data-chapter-".length)
  | none => chap_id

/-- Model of the record construction for one kept chapter node
(lines 121–143 in the volume branch, with `volId = some vol_id`, and
lines 157–177 in the flat branch, with `volId = none`): title split,
chapter id from the label's first numeric token, link from the node's
href unless empty or `"#"` (then the synthesized fallback), guid from the
class marker, coin from the coin span. -/
def build_chapter (novel_url main_desc : String) (volId : Option String)
    (a : ATag) (chap : ChapLi) (pub_dt : Int) : Chapter :=
  let raw_title := a.text
  let st := split_title raw_title
  let chap_id := (firstNum st.1).getD ""
  let href := pyStrip (a.href.getD "")
  let link :=
    if href ≠ "" ∧ href ≠ "#" then href
    else
      match volId with
      | some vol_id => novel_url ++ vol_id ++ "/" ++ chap_id ++ "/"
      | none => novel_url ++ "chapter-" ++ chap_id ++ "/"
  { volume := volId.getD ""
    chaptername := st.1
    nameextend := st.2
    link := link
    description := main_desc
    pubDate := pub_dt
    guid := guid_from_classes chap.classes chap_id
    coin := (chap.coin).getD "" }

/-- Model of the chapter-node loop shared by both listing shapes
(lines 112–143 / 148–177): skip free-marked nodes, extract the pubdate
(propagating a date-parse exception), skip stale nodes, skip nodes
without an `<a>`, and append the built record. -/
def process_chap_list (novel_url main_desc : String) (now : Int)
    (volId : Option String) : List ChapLi → Except Unit (List Chapter)
  | [] => .ok []
  | chap :: rest =>
      if "free-chap" ∈ chap.classes then
        process_chap_list novel_url main_desc now volId rest
      else
        match extract_pubdate_from_soup chap now with
        | .error e => .error e
        | .ok pub_dt =>
          if pub_dt < now - usPerWeek then
            process_chap_list novel_url main_desc now volId rest
          else
            match chap.a with
            | none => process_chap_list novel_url main_desc now volId rest
            | some a =>
              match process_chap_list novel_url main_desc now volId rest with
              | .error e => .error e
              | .ok cs => .ok (build_chapter novel_url main_desc volId a chap pub_dt :: cs)

/-- Model of the volume-group loop (lines 108–143): for each group the
volume id is the leading numeric token of the group's label (`""` when
there is none), and the group's chapter nodes are processed with it. -/
def process_volumes (novel_url main_desc : String) (now : Int) :
    List VolGroup → Except Unit (List Chapter)
  | [] => .ok []
  | g :: rest =>
      let vol_id := (leadingNum g.label).getD ""
      match process_chap_list novel_url main_desc now (some vol_id) g.chapters with
      | .error e => .error e
      | .ok cs =>
        match process_volumes novel_url main_desc now rest with
        | .error e => .error e
        | .ok csr => .ok (cs ++ csr)

/-- Model of `scrape_paid_chapters_async` (lines 95–179) given the already
fetched and parsed page: clean the description, process the volume-grouped
container (when present) then the flat container (when present), and
return the records with the cleaned synopsis. -/
def scrape_paid_chapters (novel_url : String) (now : Int) (page : Page) :
    Except Unit (List Chapter × String) :=
  let main_desc :=
    match page.descDiv with
    | some raw => clean_description raw
    | none => ""
  match (match page.volContainer with
         | some groups => process_volumes novel_url main_desc now groups
         | none => .ok []) with
  | .error e => .error e
  | .ok volPart =>
    match (match page.noVol with
           | some chs => process_chap_list novel_url main_desc now none chs
           | none => .ok []) with
    | .error e => .error e
    | .ok flatPart => .ok (volPart ++ flatPart, main_desc)

/-! ### Preflight and per-novel task (lines 82–93 and 234–264) -/

/-- Model of `novel_has_paid_update_async` (lines 82–93): a fetch failure
is caught and yields `false`; otherwise the document-order first chapter
node must exist, carry the `premium` class, not carry `free-chap`, and
have a pubdate within the trailing 7-day window.  A date-parse exception
from `extract_pubdate_from_soup` is not caught and propagates. -/
def novel_has_paid_update (world : World) (now : Int) (novel_url : String) :
    Except Unit Bool :=
  match world novel_url with
  | .error _ => .ok false
  | .ok page =>
    match page.firstChap with
    | some first =>
        if "premium" ∈ first.classes ∧ "free-chap" ∉ first.classes then
          match extract_pubdate_from_soup first now with
          | .error e => .error e
          | .ok pub => .ok (decide (now - usPerWeek ≤ pub))
        else .ok false
    | none => .ok false

/-- One feed item (`MyRSSItem`, lines 183–189, as constructed in
lines 245–255): the chapter record plus the novel's title.  The
`tzinfo is None` branch of lines 242–244 is a no-op here because every
timestamp in the model is already absolute UTC. -/
structure Item where
  title : String
  volume : String
  chaptername : String
  nameextend : String
  link : String
  description : String
  pubDate : Int
  guid : String
  coin : String
  deriving DecidableEq

/-- Build the `MyRSSItem` of one chapter record (lines 245–256). -/
def mk_item (novel_title : String) (c : Chapter) : Item :=
  { title := novel_title
    volume := c.volume
    chaptername := c.chaptername
    nameextend := c.nameextend
    link := c.link
    description := c.description
    pubDate := c.pubDate
    guid := c.guid
    coin := c.coin }

/-- Model of `process_novel` (lines 234–257): resolve the URL, run the
preflight (a preflight `false` yields the empty contribution), then fetch
and scrape — any exception after a positive preflight propagates. -/
def process_novel (world : World) (now : Int) (get_novel_url : String → String)
    (novel_title : String) : Except Unit (List Item) :=
  let novel_url := get_novel_url novel_title
  match novel_has_paid_update world now novel_url with
  | .error e => .error e
  | .ok false => .ok []
  | .ok true =>
    match world novel_url with
    | .error e => .error e
    | .ok page =>
      match scrape_paid_chapters novel_url now page with
      | .error e => .error e
      | .ok cd => .ok (cd.1.map (mk_item novel_title))

/-- Model of the task fan-out and merge of `main_async` (lines 259–264):
one task per configured title, results concatenated in task order;
`asyncio.gather` without `return_exceptions=True` propagates the first
task exception, aborting the whole run. -/
def gather_items (world : World) (now : Int) (get_novel_url : String → String) :
    List String → Except Unit (List Item)
  | [] => .ok []
  | t :: ts =>
      match process_novel world now get_novel_url t with
      | .error e => .error e
      | .ok items =>
        match gather_items world now get_novel_url ts with
        | .error e => .error e
        | .ok rest => .ok (items ++ rest)

/-! ### The sort of `main_async` line 266 -/

/-- Python tuple comparison `a <= b` on numeric tuples: lexicographic,
with a strict prefix smaller than the longer tuple. -/
def pyListLE : List ℚ → List ℚ → Bool
  | [], _ => true
  | _ :: _, [] => false
  | a :: as_, b :: bs =>
      if a < b then true
      else if b < a then false
      else pyListLE as_ bs

/-- The descending comparison realised by
`all_items.sort(key=lambda it: (normalize_date(it.pubDate), chapter_num(it.chaptername)), reverse=True)`:
`item_ge a b` holds when `a`'s composite key is at least `b`'s, so the
output is ascending with respect to `item_ge` exactly when it is
descending in the composite key. -/
def item_ge (a b : Item) : Bool :=
  if normalize_date b.pubDate < normalize_date a.pubDate then true
  else if normalize_date a.pubDate < normalize_date b.pubDate then false
  else pyListLE (chapter_num b.chaptername) (chapter_num a.chaptername)

/-- Model of line 266: a stable sort of the merged items, descending in
the composite key (Python `list.sort` with `reverse=True`). -/
def sort_items (items : List Item) : List Item :=
  items.mergeSort item_ge

/-! ### The feed serializer (`MyRSSItem.writexml`, `CustomRSS2.writexml`,
lines 183–231) and the output-file protocol of `main_async`
(lines 275–285) -/

/-- Modelled from the spec: the external collaborators of §6 of the spec
(`dh_mappings`, which is not part of this repository's source tree) —
pure lookups from novel title and translator name.  `get_translator`
returns `none` for an unknown title (the code appends `or ""`); the
remaining lookups yield plain strings. -/
structure Mappings where
  nsfw_novels : List String
  get_translator : String → Option String
  get_discord_role_id : String → String
  get_featured_image : String → String
  get_novel_url : String → String

/-- Model of `xml.sax.saxutils.escape`: replace `&`, `<`, `>` by their
entities. -/
def sax_escape (s : String) : String :=
  String.join (s.data.map fun c =>
    if c = '&' then "&amp;"
    else if c = '<' then "&lt;"
    else if c = '>' then "&gt;"
    else String.singleton c)

/-- Model of `MyRSSItem.writexml` (lines 191–213): the sequence of
`writer.write` calls for one item, in order. -/
def item_writes (M : Mappings) (indent addindent newl : String) (it : Item) :
    List String :=
  let formatted := if pyStrip it.nameextend ≠ "" then "***" ++ it.nameextend ++ "***" else ""
  let cat := if it.title ∈ M.nsfw_novels then "NSFW" else "SFW"
  let trans := (M.get_translator it.title).getD ""
  let role0 := M.get_discord_role_id trans
  let role := if cat = "NSFW" then role0 ++ " <@&1304077473998442506>" else role0
  [indent ++ "  <item>" ++ newl,
   indent ++ "    <title>" ++ sax_escape it.title ++ "</title>" ++ newl,
   indent ++ "    <volume>" ++ sax_escape it.volume ++ "</volume>" ++ newl,
   indent ++ "    <chaptername>" ++ sax_escape it.chaptername ++ "</chaptername>" ++ newl,
   indent ++ "    <nameextend>" ++ sax_escape formatted ++ "</nameextend>" ++ newl,
   indent ++ "    <link>" ++ sax_escape it.link ++ "</link>" ++ newl,
   indent ++ "    <description><![CDATA[" ++ it.description ++ "]]></description>" ++ newl,
   indent ++ "    <category>" ++ sax_escape cat ++ "</category>" ++ newl,
   indent ++ "    <translator>" ++ sax_escape trans ++ "</translator>" ++ newl,
   indent ++ "    <discord_role_id><![CDATA[" ++ role ++ "]]></discord_role_id>" ++ newl,
   indent ++ "    <featuredImage url=\"" ++ sax_escape (M.get_featured_image it.title) ++ "\"/>" ++ newl]
  ++ (if it.coin ≠ "" then
        [indent ++ "    <coin>" ++ sax_escape it.coin ++ "</coin>" ++ newl]
      else [])
  ++ [indent ++ "    <pubDate>" ++ strftimeRFC822 it.pubDate ++ "</pubDate>" ++ newl,
      indent ++ "    <guid isPermaLink=\"false\">" ++ sax_escape it.guid ++ "</guid>" ++ newl,
      indent ++ "  </item>" ++ newl]

/-- Channel metadata of the `CustomRSS2` object.  String fields model the
truthiness test `if val:` of line 224 with `""` as the falsy/absent value;
`lastBuildDate` is a timestamp option. -/
structure ChannelMeta where
  title : String := ""
  link : String := ""
  description : String := ""
  language : String := ""
  lastBuildDate : Option Int := none
  docs : String := ""
  generator : String := ""
  ttl : String := ""
  deriving DecidableEq

/-- One written channel field line (lines 222–227). -/
def channel_tag_write (indent addindent newl tag val : String) : List String :=
  if val ≠ "" then
    [indent ++ addindent ++ "<" ++ tag ++ ">" ++ sax_escape val ++ "</" ++ tag ++ ">" ++ newl]
  else []

/-- The channel-field loop of `CustomRSS2.writexml` (lines 222–227), tags
in the code's order, with `lastBuildDate` rendered through `strftime`. -/
def channel_field_writes (indent addindent newl : String) (ch : ChannelMeta) :
    List String :=
  channel_tag_write indent addindent newl "title" ch.title
  ++ channel_tag_write indent addindent newl "link" ch.link
  ++ channel_tag_write indent addindent newl "description" ch.description
  ++ channel_tag_write indent addindent newl "language" ch.language
  ++ (match ch.lastBuildDate with
      | some d => channel_tag_write indent addindent newl "lastBuildDate" (strftimeRFC822 d)
      | none => [])
  ++ channel_tag_write indent addindent newl "docs" ch.docs
  ++ channel_tag_write indent addindent newl "generator" ch.generator
  ++ channel_tag_write indent addindent newl "ttl" ch.ttl

/-- The fixed `<rss ...>` opening tag of line 219 (Python adjacent string
literals concatenate; the gaps between the literals are not part of the
string). -/
def rss_open_tag : String :=
  "<rss xmlns:content=\"http://purl.org/rss/1.0/modules/content/\" " ++
  "xmlns:wfw=\"http://wellformedweb.org/CommentAPI/\" " ++
  "xmlns:dc=\"http://purl.org/dc/elements/1.1/\" " ++
  "xmlns:atom=\"http://www.w3.org/2005/Atom\" " ++
  "xmlns:sy=\"http://purl.org/rss/1.0/modules/syndication/\" " ++
  "xmlns:slash=\"http://purl.org/rss/1.0/modules/slash/\" " ++
  "xmlns:webfeeds=\"http://www.webfeeds.org/rss/1.0\" " ++
  "xmlns:georss=\"http://www.georss.org/georss\" " ++
  "xmlns:geo=\"http://www.w3.org/2003/01/geo/wgs84_pos#\" version=\"2.0\">"

/-- Model of `CustomRSS2.writexml` (lines 216–231): the full ordered
sequence of `writer.write` calls of one rendering pass. -/
def feed_writes (M : Mappings) (indent addindent newl : String)
    (ch : ChannelMeta) (items : List Item) : List String :=
  ["<?xml version=\"1.0\" encoding=\"utf-8\"?>" ++ newl,
   rss_open_tag ++ newl,
   indent ++ "<channel>" ++ newl]
  ++ channel_field_writes indent addindent newl ch
  ++ (items.map (item_writes M (indent ++ addindent) addindent newl)).flatten
  ++ [indent ++ "</channel>" ++ newl, "</rss>" ++ newl]

/-- File-level operations of `main_async`'s output protocol:
`open(output_file, "w")` truncates the file, `writer.write` appends. -/
inductive FileOp where
  | openWrite : FileOp
  | write : String → FileOp
  deriving DecidableEq

/-- Effect of one file operation on the file's content. -/
def applyFileOp (content : String) : FileOp → String
  | .openWrite => ""
  | .write s => content ++ s

/-- Content of the output file after running a sequence of operations
against a file initially holding `content`. -/
def runFileOps (content : String) (ops : List FileOp) : String :=
  ops.foldl applyFileOp content

/-- The file operations executed by lines 277–278 when rendering raises
after the first `k` writer calls: `open(output_file, "w")` (truncation)
followed by the writes that happened before the failure (the `with` block
closes and flushes the handle on the way out). -/
def render_ops_upto (M : Mappings) (ch : ChannelMeta) (items : List Item)
    (k : Nat) : List FileOp :=
  FileOp.openWrite :: ((feed_writes M "  " "  " "\n" ch items).take k).map FileOp.write

/-! ### Concrete fixtures used by witnesses and counterexamples -/

/-- Page filter used to state that free-marked nodes are absent from the
extractor's output: drop every chapter node carrying `free-chap` from both
listing containers. -/
def dropFree (page : Page) : Page :=
  { page with
    volContainer := page.volContainer.map (List.map fun g =>
      { g with chapters := g.chapters.filter fun ch => decide ("free-chap" ∉ ch.classes) })
    noVol := page.noVol.map (List.filter fun ch => decide ("free-chap" ∉ ch.classes)) }

/-- A premium chapter node released one hour ago with a real link. -/
def chapFreshPremium : ChapLi :=
  { classes := ["wp-manga-chapter", "premium"]
    dateText := some "1 hour ago"
    a := some { text := "Chapter 1", href := some "https://dh.test/n/ch-1/" }
    coin := some "5" }

/-- A chapter node whose release-date text is the single digit token
`"5"`: `extract_pubdate_from_soup` raises `IndexError` on it. -/
def chapBadDate : ChapLi :=
  { classes := ["wp-manga-chapter"]
    dateText := some "5"
    a := some { text := "Chapter 2", href := some "https://dh.test/n/ch-2/" }
    coin := none }

/-- A chapter node with no href and the label `"Chapter 12.5 - Extra"`
(the link-fallback example of the spec), with no release-date element. -/
def chapNoHref : ChapLi :=
  { classes := ["wp-manga-chapter"]
    dateText := none
    a := some { text := "Chapter 12.5 - Extra", href := none }
    coin := none }

/-- Flat-listing page whose first chapter triggers the date-parse
exception during full extraction although the preflight node is fine. -/
def pageBadExtract : Page :=
  { descDiv := none
    firstChap := some chapFreshPremium
    volContainer := none
    noVol := some [chapFreshPremium, chapBadDate] }

/-- Healthy flat-listing page with one fresh premium chapter. -/
def pageHealthy : Page :=
  { descDiv := none
    firstChap := some chapFreshPremium
    volContainer := none
    noVol := some [chapFreshPremium] }

/-- Flat page holding only the no-href chapter node. -/
def pageNoHref : Page :=
  { descDiv := none
    firstChap := some chapNoHref
    volContainer := none
    noVol := some [chapNoHref] }

/-- Volume-grouped page whose single group is labelled `"Volume 2"` and
holds one fresh paid chapter. -/
def pageVolumeLabelled : Page :=
  { descDiv := none
    firstChap := some chapFreshPremium
    volContainer := some [{ label := "Volume 2", chapters := [chapFreshPremium] }]
    noVol := none }

/-- Fixed run time used by the concrete fixtures
(2023-11-14T22:13:20Z in microseconds). -/
def tNow : Int := 1700000000000000

/-- Two-novel world: novel `A`'s page parses but its second chapter node
kills the extractor, novel `B`'s page is healthy. -/
def worldAB : World := fun url =>
  if url = "https://dh.test/a/" then .ok pageBadExtract
  else if url = "https://dh.test/b/" then .ok pageHealthy
  else .error ()

/-- Title-to-URL mapping of the two-novel world. -/
def urlAB : String → String := fun t =>
  if t = "A" then "https://dh.test/a/" else "https://dh.test/b/"

/-- World with a single novel whose listing page fails to fetch. -/
def worldFetchFail : World := fun _ => .error ()

/-- World serving the volume-labelled page at every URL. -/
def worldVolume : World := fun _ => .ok pageVolumeLabelled

/-- Mappings fixture with no NSFW titles and empty lookups. -/
def mappingsEmpty : Mappings :=
  { nsfw_novels := []
    get_translator := fun _ => none
    get_discord_role_id := fun _ => ""
    get_featured_image := fun _ => ""
    get_novel_url := fun _ => "https://dh.test/n/" }

/-- Channel fixture matching the feed constructed in lines 268–274. -/
def channelMain : ChannelMeta :=
  { title := "Dragonholic Paid Chapters"
    link := "https://dragonholic.com"
    description := "Aggregated RSS feed for paid chapters across mapped novels."
    lastBuildDate := some tNow }

/-! ### Helper lemmas about the extraction loop -/

/-- Every record the chapter loop emits carries the volume id the loop
was called with (`""` in the flat branch). -/
theorem process_chap_list_volume_eq (nu md : String) (now : Int) (volId : Option String) :
    ∀ (chs : List ChapLi) (cs : List Chapter),
      process_chap_list nu md now volId chs = .ok cs →
      ∀ c ∈ cs, c.volume = volId.getD "" := by
  intro chs
  induction chs with
  | nil =>
    intro cs h c hc
    simp only [process_chap_list] at h
    cases h
    simp at hc
  | cons chap rest ih =>
    intro cs h c hc
    simp only [process_chap_list] at h
    split at h
    · exact ih cs h c hc
    · split at h
      · cases h
      · split at h
        · exact ih cs h c hc
        · split at h
          · exact ih cs h c hc
          · split at h
            · cases h
            · cases h
              rcases List.mem_cons.mp hc with hc | hc
              · subst hc
                rfl
              · exact ih _ (by assumption) c hc

/-- Every record the chapter loop emits has a publication date within the
trailing 7-day window. -/
theorem process_chap_list_fresh (nu md : String) (now : Int) (volId : Option String) :
    ∀ (chs : List ChapLi) (cs : List Chapter),
      process_chap_list nu md now volId chs = .ok cs →
      ∀ c ∈ cs, now - usPerWeek ≤ c.pubDate := by
  intro chs
  induction chs with
  | nil =>
    intro cs h c hc
    simp only [process_chap_list] at h
    cases h
    simp at hc
  | cons chap rest ih =>
    intro cs h c hc
    simp only [process_chap_list] at h
    split at h
    · exact ih cs h c hc
    · split at h
      · cases h
      · rename_i pub_dt heq
        split at h
        · exact ih cs h c hc
        · rename_i hstale
          split at h
          · exact ih cs h c hc
          · split at h
            · cases h
            · cases h
              rcases List.mem_cons.mp hc with hc | hc
              · subst hc
                exact le_of_not_lt hstale
              · exact ih _ (by assumption) c hc

/-- Removing the free-marked nodes from the input list does not change
the chapter loop's result: free nodes are skipped before anything else
about them is read. -/
theorem process_chap_list_filter_free (nu md : String) (now : Int) (volId : Option String) :
    ∀ chs : List ChapLi,
      process_chap_list nu md now volId
        (chs.filter fun ch => decide ("free-chap" ∉ ch.classes)) =
      process_chap_list nu md now volId chs := by
  intro chs
  induction chs with
  | nil => rfl
  | cons chap rest ih =>
    by_cases hf : "free-chap" ∈ chap.classes
    · rw [List.filter_cons_of_neg (by simpa using hf)]
      rw [ih]
      conv_rhs => rw [process_chap_list]
      rw [if_pos hf]
    · rw [List.filter_cons_of_pos (by simpa using hf)]
      conv_lhs => rw [process_chap_list]
      conv_rhs => rw [process_chap_list]
      rw [if_neg hf, if_neg hf, ih]

/-- Every record emitted from the volume-grouped branch carries the
leading numeric token of some group's label (with `""` when the label has
none). -/
theorem process_volumes_volume_eq (nu md : String) (now : Int) :
    ∀ (groups : List VolGroup) (cs : List Chapter),
      process_volumes nu md now groups = .ok cs →
      ∀ c ∈ cs, ∃ g ∈ groups, c.volume = (leadingNum g.label).getD "" := by
  intro groups
  induction groups with
  | nil =>
    intro cs h c hc
    simp only [process_volumes] at h
    cases h
    simp at hc
  | cons g rest ih =>
    intro cs h c hc
    simp only [process_volumes] at h
    split at h
    · cases h
    · rename_i cs1 heq1
      split at h
      · cases h
      · rename_i cs2 heq2
        cases h
        rcases List.mem_append.mp hc with hc | hc
        · exact ⟨g, List.mem_cons_self g rest,
            process_chap_list_volume_eq nu md now (some ((leadingNum g.label).getD ""))
              g.chapters cs1 heq1 c hc⟩
        · rcases ih cs2 heq2 c hc with ⟨g2, hg2, hv⟩
          exact ⟨g2, List.mem_cons_of_mem g hg2, hv⟩

/-- Freshness of every record emitted from the volume-grouped branch. -/
theorem process_volumes_fresh (nu md : String) (now : Int) :
    ∀ (groups : List VolGroup) (cs : List Chapter),
      process_volumes nu md now groups = .ok cs →
      ∀ c ∈ cs, now - usPerWeek ≤ c.pubDate := by
  intro groups
  induction groups with
  | nil =>
    intro cs h c hc
    simp only [process_volumes] at h
    cases h
    simp at hc
  | cons g rest ih =>
    intro cs h c hc
    simp only [process_volumes] at h
    split at h
    · cases h
    · rename_i cs1 heq1
      split at h
      · cases h
      · rename_i cs2 heq2
        cases h
        rcases List.mem_append.mp hc with hc | hc
        · exact process_chap_list_fresh nu md now _ g.chapters cs1 heq1 c hc
        · exact ih cs2 heq2 c hc

/-- Removing free-marked nodes from every volume group does not change
the volume branch's result. -/
theorem process_volumes_filter_free (nu md : String) (now : Int) :
    ∀ groups : List VolGroup,
      process_volumes nu md now
        (groups.map fun g =>
          { g with chapters := g.chapters.filter fun ch => decide ("free-chap" ∉ ch.classes) }) =
      process_volumes nu md now groups := by
  intro groups
  induction groups with
  | nil => rfl
  | cons g rest ih =>
    simp only [List.map_cons, process_volumes]
    simp only [process_chap_list_filter_free, ih]

/-- Dropping the free-marked nodes from a page leaves the extractor's
whole result unchanged. -/
theorem scrape_filter_free (nu : String) (now : Int) (page : Page) :
    scrape_paid_chapters nu now (dropFree page) = scrape_paid_chapters nu now page := by
  cases page with
  | mk descDiv firstChap volContainer noVol =>
    simp only [scrape_paid_chapters, dropFree]
    cases volContainer with
    | none =>
      cases noVol with
      | none => rfl
      | some chs =>
        dsimp only [Option.map]
        simp only [process_chap_list_filter_free]
    | some groups =>
      dsimp only [Option.map]
      simp only [process_volumes_filter_free]
      cases noVol with
      | none => rfl
      | some chs =>
        dsimp only [Option.map]
        simp only [process_chap_list_filter_free]

/-- Every record in a successful extraction has a publication date within
the trailing 7-day window. -/
theorem scrape_fresh (nu : String) (now : Int) (page : Page)
    (chapters : List Chapter) (desc : String)
    (h : scrape_paid_chapters nu now page = .ok (chapters, desc)) :
    ∀ c ∈ chapters, now - usPerWeek ≤ c.pubDate := by
  intro c hc
  simp only [scrape_paid_chapters] at h
  split at h
  · cases h
  · rename_i volPart heqv
    split at h
    · cases h
    · rename_i flatPart heqf
      cases h
      rcases List.mem_append.mp hc with hc | hc
      · cases hv : page.volContainer with
        | none =>
          rw [hv] at heqv
          cases heqv
          simp at hc
        | some groups =>
          rw [hv] at heqv
          exact process_volumes_fresh nu _ now groups volPart heqv c hc
      · cases hf : page.noVol with
        | none =>
          rw [hf] at heqf
          cases heqf
          simp at hc
        | some chs =>
          rw [hf] at heqf
          exact process_chap_list_fresh nu _ now none chs flatPart heqf c hc

/-! ### Claim theorems -/

/-- C6: a ChapterUpdate is emitted only if its node is not structurally
marked free and its `publishedAt` lies within the trailing 7-day window
measured against the run time; free-marked nodes never contribute
(removing them all leaves the extraction result unchanged, whatever their
dates), and no emitted record is older than `now - 7 days`. -/
theorem extraction_free_and_freshness_invariant (novel_url : String) (now : Int) (page : Page) :
    scrape_paid_chapters novel_url now (dropFree page) =
      scrape_paid_chapters novel_url now page ∧
    ∀ chapters desc,
      scrape_paid_chapters novel_url now page = .ok (chapters, desc) →
      ∀ c ∈ chapters, now - usPerWeek ≤ c.pubDate :=
  ⟨scrape_filter_free novel_url now page,
   fun chapters desc h => scrape_fresh novel_url now page chapters desc h⟩

/-- Witness for C6 at the healthy one-chapter page. -/
theorem extraction_free_and_freshness_invariant_witness :
    (scrape_paid_chapters "https://dh.test/n/" tNow (dropFree pageHealthy) =
      scrape_paid_chapters "https://dh.test/n/" tNow pageHealthy) ∧
    ∀ c ∈ [Chapter.mk "" "Chapter 1" "" "https://dh.test/n/ch-1/" "" (tNow - usPerHour) "1" "5"],
      tNow - usPerWeek ≤ c.pubDate :=
  ⟨(extraction_free_and_freshness_invariant "https://dh.test/n/" tNow pageHealthy).1,
   (extraction_free_and_freshness_invariant "https://dh.test/n/" tNow pageHealthy).2
     [Chapter.mk "" "Chapter 1" "" "https://dh.test/n/ch-1/" "" (tNow - usPerHour) "1" "5"]
     "" (by rfl)⟩

/-- C7 (amended): the `volume` field of a record extracted from a
volume-grouped listing is the leading numeric token of the containing
group's display label — `""` when the label does not begin with a number
— not the display label itself; records from a flat listing always carry
`""`. -/
theorem volume_field_is_leading_numeric_token (nu md : String) (now : Int)
    (groups : List VolGroup) (cs : List Chapter) (chs : List ChapLi) (cs2 : List Chapter)
    (hvol : process_volumes nu md now groups = .ok cs)
    (hflat : process_chap_list nu md now none chs = .ok cs2) :
    (∀ c ∈ cs, ∃ g ∈ groups, c.volume = (leadingNum g.label).getD "") ∧
    (∀ c ∈ cs2, c.volume = "") :=
  ⟨process_volumes_volume_eq nu md now groups cs hvol,
   fun c hc => process_chap_list_volume_eq nu md now none chs cs2 hflat c hc⟩

/-- Witness for C7's amended statement at a concrete group and flat list. -/
theorem volume_field_is_leading_numeric_token_witness :
    (∀ c ∈ [Chapter.mk "" "Chapter 1" "" "https://dh.test/n/ch-1/" "" (tNow - usPerHour) "1" "5"],
      ∃ g ∈ [VolGroup.mk "Volume 2" [chapFreshPremium]],
        c.volume = (leadingNum g.label).getD "") ∧
    (∀ c ∈ [Chapter.mk "" "Chapter 1" "" "https://dh.test/n/ch-1/" "" (tNow - usPerHour) "1" "5"],
      c.volume = "") :=
  volume_field_is_leading_numeric_token "u/" "" tNow
    [VolGroup.mk "Volume 2" [chapFreshPremium]]
    [Chapter.mk "" "Chapter 1" "" "https://dh.test/n/ch-1/" "" (tNow - usPerHour) "1" "5"]
    [chapFreshPremium]
    [Chapter.mk "" "Chapter 1" "" "https://dh.test/n/ch-1/" "" (tNow - usPerHour) "1" "5"]
    (by rfl) (by rfl)

/-- Counterexample to C7 as stated: a volume-grouped page whose single
group is labelled `"Volume 2"` produces a record whose `volume` field is
`""`, not the display label, although the listing is not flat. -/
theorem volume_field_not_display_label :
    (scrape_paid_chapters "https://dh.test/n/" tNow pageVolumeLabelled).map
        (fun p => p.1.map Chapter.volume) = .ok [""] ∧
    pageVolumeLabelled.volContainer =
      some [VolGroup.mk "Volume 2" [chapFreshPremium]] ∧
    pageVolumeLabelled.noVol = none ∧
    ("" : String) ≠ "Volume 2" :=
  ⟨by rfl, rfl, rfl, by decide⟩

/-- C3 (amended): when a chapter node's href is absent, empty after
stripping, or the placeholder `"#"`, the synthesized fallback link is
built from the first numeric token of the chapter label (`""` when the
label has none), not from a slug of the full label:
`{novelUrl}{volId}/{chapId}/` in the volume case and
`{novelUrl}chapter-{chapId}/` in the flat case. -/
theorem link_fallback_uses_first_numeric_token (novel_url main_desc : String)
    (volId : Option String) (a : ATag) (chap : ChapLi) (pub_dt : Int)
    (h : pyStrip (a.href.getD "") = "" ∨ pyStrip (a.href.getD "") = "#") :
    (build_chapter novel_url main_desc volId a chap pub_dt).link =
      match volId with
      | some vol_id =>
          novel_url ++ vol_id ++ "/" ++ (firstNum (split_title a.text).1).getD "" ++ "/"
      | none =>
          novel_url ++ "chapter-" ++ (firstNum (split_title a.text).1).getD "" ++ "/" := by
  simp only [build_chapter]
  rcases h with h | h <;> rw [h] <;> simp

/-- Witness for C3's amended statement at the no-href node with label
`"Chapter 12.5 - Extra"`. -/
theorem link_fallback_uses_first_numeric_token_witness :
    (build_chapter "https://dh.test/n/" "" none (ATag.mk "Chapter 12.5 - Extra" none)
        chapNoHref tNow).link =
      match (none : Option String) with
      | some vol_id =>
          "https://dh.test/n/" ++ vol_id ++ "/" ++
            (firstNum (split_title "Chapter 12.5 - Extra").1).getD "" ++ "/"
      | none =>
          "https://dh.test/n/" ++ "chapter-" ++
            (firstNum (split_title "Chapter 12.5 - Extra").1).getD "" ++ "/" :=
  link_fallback_uses_first_numeric_token "https://dh.test/n/" "" none
    (ATag.mk "Chapter 12.5 - Extra" none) chapNoHref tNow (Or.inl (by decide))

/-- Counterexample to C3 as stated: for the no-href node with label
`"Chapter 12.5 - Extra"` on a flat listing the fallback link is
`{novelUrl}chapter-12.5/` (first numeric token of the label), not the
claimed `{novelUrl}chapter-12-5-extra/` (slug of the full label). -/
theorem link_fallback_not_full_label_slug :
    (scrape_paid_chapters "https://dh.test/n/" tNow pageNoHref).map
        (fun p => p.1.map Chapter.link) = .ok ["https://dh.test/n/chapter-12.5/"] ∧
    "https://dh.test/n/chapter-12.5/" ≠ "https://dh.test/n/chapter-12-5-extra/" :=
  ⟨by rfl, by decide⟩

/-- C9: a chapter node whose release-date element is missing gets
`publishedAt = now`, therefore always passes the 7-day freshness check,
and — when it is not marked free and has an anchor — is emitted at the
head of the loop's output for its position. -/
theorem missing_date_defaults_to_now_and_included (chap : ChapLi) (now : Int)
    (novel_url main_desc : String) (volId : Option String) (rest : List ChapLi) (a : ATag)
    (hdate : chap.dateText = none) (hfree : "free-chap" ∉ chap.classes)
    (ha : chap.a = some a) :
    extract_pubdate_from_soup chap now = .ok now ∧
    now - usPerWeek ≤ now ∧
    process_chap_list novel_url main_desc now volId (chap :: rest) =
      match process_chap_list novel_url main_desc now volId rest with
      | .error e => .error e
      | .ok cs => .ok (build_chapter novel_url main_desc volId a chap now :: cs) := by
  have hext : extract_pubdate_from_soup chap now = .ok now := by
    simp [extract_pubdate_from_soup, hdate]
  refine ⟨hext, by simp only [usPerWeek]; omega, ?_⟩
  simp only [process_chap_list, if_neg hfree, hext, ha]
  rw [if_neg (by simp only [usPerWeek]; omega : ¬ now < now - usPerWeek)]

/-- Witness for C9 at the dateless no-href node. -/
theorem missing_date_defaults_to_now_and_included_witness :
    extract_pubdate_from_soup chapNoHref tNow = .ok tNow ∧
    tNow - usPerWeek ≤ tNow ∧
    process_chap_list "u/" "" tNow none [chapNoHref] =
      match process_chap_list "u/" "" tNow none [] with
      | .error e => .error e
      | .ok cs =>
          .ok (build_chapter "u/" "" none (ATag.mk "Chapter 12.5 - Extra" none)
            chapNoHref tNow :: cs) :=
  missing_date_defaults_to_now_and_included chapNoHref tNow "u/" "" none []
    (ATag.mk "Chapter 12.5 - Extra" none) rfl (by decide) rfl

/-- C8: the preflight returns `.ok true` exactly when the fetched page's
first chapter-list node exists, is structurally marked `premium`, is not
marked `free-chap`, and its normalized date (whose extraction must
succeed) lies within the trailing 7-day window; and a fetch failure
yields `.ok false` instead of an error. -/
theorem preflight_iff_first_premium_fresh (w : World) (now : Int) (url : String) :
    (∀ page, w url = .ok page →
      (novel_has_paid_update w now url = .ok true ↔
        ∃ first, page.firstChap = some first ∧
          "premium" ∈ first.classes ∧ "free-chap" ∉ first.classes ∧
          ∃ pub, extract_pubdate_from_soup first now = .ok pub ∧
            now - usPerWeek ≤ pub)) ∧
    (w url = .error () → novel_has_paid_update w now url = .ok false) := by
  constructor
  · intro page hw
    unfold novel_has_paid_update
    rw [hw]
    dsimp only
    cases hfc : page.firstChap with
    | none => simp
    | some first =>
      dsimp only
      by_cases hcond : "premium" ∈ first.classes ∧ "free-chap" ∉ first.classes
      · rw [if_pos hcond]
        cases hext : extract_pubdate_from_soup first now with
        | error e =>
          dsimp only
          constructor
          · intro h
            cases h
          · rintro ⟨first2, hf2, _, _, pub, hp, _⟩
            injection hf2 with hf2e
            subst hf2e
            rw [hext] at hp
            cases hp
        | ok pub =>
          dsimp only
          constructor
          · intro h
            injection h with h1
            exact ⟨first, rfl, hcond.1, hcond.2, pub, hext, of_decide_eq_true h1⟩
          · rintro ⟨first2, hf2, _, _, pub2, hp2, hfr2⟩
            injection hf2 with hf2e
            subst hf2e
            rw [hext] at hp2
            injection hp2 with hp3
            subst hp3
            exact congrArg Except.ok (decide_eq_true hfr2)
      · rw [if_neg hcond]
        constructor
        · intro h
          injection h with h1
          simp at h1
        · rintro ⟨first2, hf2, hprem, hfree, _⟩
          injection hf2 with hf2e
          subst hf2e
          exact absurd ⟨hprem, hfree⟩ hcond
  · intro h
    unfold novel_has_paid_update
    rw [h]

/-- Witness for C8: the healthy page's premium fresh first node makes the
preflight return true, and a failing fetch makes it return false. -/
theorem preflight_iff_first_premium_fresh_witness :
    novel_has_paid_update worldAB tNow "https://dh.test/b/" = .ok true ∧
    novel_has_paid_update worldFetchFail tNow "u" = .ok false :=
  ⟨((preflight_iff_first_premium_fresh worldAB tNow "https://dh.test/b/").1 pageHealthy
      (by rfl)).mpr
    ⟨chapFreshPremium, rfl, by decide, by decide, tNow - usPerHour, by rfl, by decide⟩,
   (preflight_iff_first_premium_fresh worldFetchFail tNow "u").2 rfl⟩

/-- C10: the full extraction pass never reads the `premium` marker — a
chapter node carrying neither `premium` nor `free-chap` is still emitted
when fresh and anchored — while the preflight returns false whenever the
first node is not explicitly premium-marked. -/
theorem premium_checked_only_in_preflight (chap : ChapLi) (now pub_dt : Int)
    (novel_url main_desc : String) (volId : Option String) (rest : List ChapLi) (a : ATag)
    (hnp : "premium" ∉ chap.classes) (hfree : "free-chap" ∉ chap.classes)
    (hext : extract_pubdate_from_soup chap now = .ok pub_dt)
    (hfresh : now - usPerWeek ≤ pub_dt) (ha : chap.a = some a)
    (w : World) (url : String) (page : Page) (first : ChapLi)
    (hw : w url = .ok page) (hfirst : page.firstChap = some first)
    (hfp : "premium" ∉ first.classes) :
    process_chap_list novel_url main_desc now volId (chap :: rest) =
      (match process_chap_list novel_url main_desc now volId rest with
       | .error e => .error e
       | .ok cs => .ok (build_chapter novel_url main_desc volId a chap pub_dt :: cs)) ∧
    novel_has_paid_update w now url = .ok false := by
  constructor
  · simp only [process_chap_list, if_neg hfree, hext]
    rw [if_neg (not_lt.mpr hfresh), ha]
  · unfold novel_has_paid_update
    rw [hw]
    dsimp only
    rw [hfirst]
    dsimp only
    rw [if_neg (fun hc => hfp hc.1)]

/-- Witness for C10 at a node carrying neither marker. -/
theorem premium_checked_only_in_preflight_witness :
    process_chap_list "u/" "" tNow none [chapNoHref] =
      (match process_chap_list "u/" "" tNow none [] with
       | .error e => .error e
       | .ok cs =>
           .ok (build_chapter "u/" "" none (ATag.mk "Chapter 12.5 - Extra" none)
             chapNoHref tNow :: cs)) ∧
    novel_has_paid_update (fun _ => .ok pageNoHref) tNow "u" = .ok false :=
  premium_checked_only_in_preflight chapNoHref tNow tNow "u/" "" none []
    (ATag.mk "Chapter 12.5 - Extra" none) (by decide) (by decide) rfl (by decide) rfl
    (fun _ => .ok pageNoHref) "u" pageNoHref chapNoHref rfl rfl (by decide)

/-- Counterexample to C5 as stated: the string `"5"` matches neither the
absolute `"Month Day, Year"` form nor the relative `"<n> <unit> ago"`
form, yet the normalizer raises (`parts[1]` IndexError) instead of
returning `now` unchanged. -/
theorem normalize_raises_on_lone_digit_token :
    DH.normalize "5" 0 = .error () ∧ strptimeBDY "5" = none :=
  ⟨by rfl, by rfl⟩

/-- C5 (amended): the three positive examples hold, and every string that
fails the absolute parse and whose first whitespace token is not a pure
digit string yields `now` unchanged with no error; strings whose first
token is all digits are instead shifted by the second token's matched
unit — and raise an index error when there is no second token. -/
theorem normalize_examples_and_failsoft (T : Int) (s : String)
    (habs : strptimeBDY s = none)
    (hnd : ∀ p0 ps, pySplitWs (pyLower s) = p0 :: ps → pyIsDigit p0 = false) :
    DH.normalize "2 hours ago" T = .ok (T - 2 * usPerHour) ∧
    DH.normalize "1 week ago" T = .ok (T - usPerWeek) ∧
    DH.normalize "March 5, 2024" T = .ok 1709596800000000 ∧
    DH.normalize s T = .ok T := by
  refine ⟨by rfl, ?_, by rfl, ?_⟩
  · show DH.normalize "1 week ago" T = .ok (T - usPerWeek)
    have : T - (1 : Nat) * usPerWeek = T - usPerWeek := by
      push_cast
      ring
    rw [← this]
    rfl
  · unfold DH.normalize
    rw [habs]
    cases hl : pySplitWs (pyLower s) with
    | nil => rfl
    | cons p0 ps =>
      dsimp only
      rw [hnd p0 ps hl]
      rfl

/-- Witness for C5's amended statement at `now = 3` and the unparseable
string `"hello"`. -/
theorem normalize_examples_and_failsoft_witness :
    DH.normalize "2 hours ago" 3 = .ok (3 - 2 * usPerHour) ∧
    DH.normalize "1 week ago" 3 = .ok (3 - usPerWeek) ∧
    DH.normalize "March 5, 2024" 3 = .ok 1709596800000000 ∧
    DH.normalize "hello" 3 = .ok 3 :=
  normalize_examples_and_failsoft 3 "hello" (by rfl)
    (fun p0 ps h => by
      rw [show pySplitWs (pyLower "hello") = ["hello"] from by rfl] at h
      injection h with h1 h2
      subst h1
      rfl)

/-- Counterexample to C1 as stated: in the two-novel world, novel `A`
passes its preflight but a parse failure inside the full extraction
(`IndexError` on the date text `"5"`) propagates, so the whole gathered
run errors out — it does not continue and complete for novel `B`, even
though `B` on its own would contribute one item. -/
theorem task_failure_aborts_whole_run :
    gather_items worldAB tNow urlAB ["A", "B"] = .error () ∧
    novel_has_paid_update worldAB tNow "https://dh.test/a/" = .ok true ∧
    (process_novel worldAB tNow urlAB "B").map List.length = .ok 1 :=
  ⟨by rfl, by rfl, by rfl⟩

/-- C1 (amended): a fetch failure is confined to the preflight, which
returns false, so the novel contributes zero items; but any exception a
per-novel task raises after a positive preflight (for example a
date-parse failure during full extraction) propagates through
`asyncio.gather` and aborts the whole run. -/
theorem fetch_failure_degrades_but_task_error_aborts (w : World) (now : Int)
    (gu : String → String) (titles : List String) (t : String)
    (hfail : w (gu t) = .error ()) :
    process_novel w now gu t = .ok [] ∧
    (∀ t2 ∈ titles, process_novel w now gu t2 = .error () →
      gather_items w now gu titles = .error ()) := by
  constructor
  · unfold process_novel novel_has_paid_update
    dsimp only
    rw [hfail]
  · intro t2 hmem herr
    induction titles with
    | nil => cases hmem
    | cons hd tl ih =>
      rcases List.mem_cons.mp hmem with rfl | hmem2
      · unfold gather_items
        rw [herr]
      · unfold gather_items
        cases hhd : process_novel w now gu hd with
        | error e =>
          cases e
          rfl
        | ok items =>
          dsimp only
          rw [ih hmem2]

/-- Witness for C1's amended statement: a world where the single title's
page never fetches, and the two-novel world where task `A` errors. -/
theorem fetch_failure_degrades_but_task_error_aborts_witness :
    process_novel worldFetchFail tNow (fun _ => "u") "A" = .ok [] ∧
    (∀ t2 ∈ ["A", "B"], process_novel worldFetchFail tNow (fun _ => "u") t2 = .error () →
      gather_items worldFetchFail tNow (fun _ => "u") ["A", "B"] = .error ()) :=
  fetch_failure_degrades_but_task_error_aborts worldFetchFail tNow (fun _ => "u")
    ["A", "B"] "A" rfl

/-- Folding string append from an arbitrary accumulator factors the
accumulator out front. -/
theorem foldl_string_append (l : List String) :
    ∀ a : String, l.foldl (fun r s => r ++ s) a = a ++ l.foldl (fun r s => r ++ s) "" := by
  induction l with
  | nil =>
    intro a
    simp
  | cons x xs ih =>
    intro a
    simp only [List.foldl_cons]
    rw [ih (a ++ x), ih ("" ++ x), String.empty_append, String.append_assoc]

/-- Appending file writes starting from `acc` appends the joined write
contents. -/
theorem runFileOps_writes (ws : List String) :
    ∀ acc : String, runFileOps acc (ws.map FileOp.write) = acc ++ String.join ws := by
  induction ws with
  | nil =>
    intro acc
    simp [runFileOps, String.join]
  | cons w ws ih =>
    intro acc
    simp only [List.map_cons, runFileOps, List.foldl_cons]
    have hj : String.join (w :: ws) = w ++ String.join ws := by
      simp only [String.join, List.foldl_cons]
      rw [foldl_string_append ws ("" ++ w), String.empty_append]
    rw [show List.foldl applyFileOp (applyFileOp acc (FileOp.write w)) (ws.map FileOp.write) =
          runFileOps (acc ++ w) (ws.map FileOp.write) from rfl,
      ih (acc ++ w), hj, String.append_assoc]

/-- C2 (amended): the output file is opened for writing — truncating the
previous feed — before any rendering output is produced, so after a
rendering failure at the `k`-th writer call the file holds exactly the
first `k` writes of the new document, independently of the previous
feed's bytes; the previous feed is not preserved. -/
theorem failed_render_leaves_truncated_prefix (old : String) (M : Mappings)
    (ch : ChannelMeta) (items : List Item) (k : Nat) :
    runFileOps old (render_ops_upto M ch items k) =
      String.join ((feed_writes M "  " "  " "\n" ch items).take k) := by
  unfold render_ops_upto
  show runFileOps "" (((feed_writes M "  " "  " "\n" ch items).take k).map FileOp.write) = _
  rw [runFileOps_writes ((feed_writes M "  " "  " "\n" ch items).take k) ""]
  exact String.empty_append _

/-- Counterexample to C2 as stated: with a previous feed on disk, a
rendering failure right after the first writer call leaves the file
holding the XML declaration of the new document — not the previous feed,
which the claim says must remain byte-for-byte unchanged — and the
failure point is strictly before the end of the write sequence. -/
theorem failed_render_modifies_previous_feed :
    runFileOps "<rss>previous feed</rss>" (render_ops_upto mappingsEmpty channelMain [] 1) =
      "<?xml version=\"1.0\" encoding=\"utf-8\"?>\n" ∧
    "<?xml version=\"1.0\" encoding=\"utf-8\"?>\n" ≠ "<rss>previous feed</rss>" ∧
    1 < (feed_writes mappingsEmpty "  " "  " "\n" channelMain []).length :=
  ⟨by rfl, by decide, by decide⟩

/-- Python tuple comparison is total. -/
theorem pyListLE_total : ∀ a b : List ℚ, (pyListLE a b || pyListLE b a) = true := by
  intro a
  induction a with
  | nil =>
    intro b
    simp [pyListLE]
  | cons x xs ih =>
    intro b
    cases b with
    | nil => simp [pyListLE]
    | cons y ys =>
      simp only [pyListLE]
      rcases lt_trichotomy x y with h | h | h
      · simp [h]
      · subst h
        simp only [lt_irrefl, if_false]
        exact ih ys
      · simp [h, lt_asymm h]

/-- Python tuple comparison is transitive. -/
theorem pyListLE_trans : ∀ a b c : List ℚ,
    pyListLE a b = true → pyListLE b c = true → pyListLE a c = true := by
  intro a
  induction a with
  | nil =>
    intro b c _ _
    simp [pyListLE]
  | cons x xs ih =>
    intro b c hab hbc
    cases b with
    | nil => simp [pyListLE] at hab
    | cons y ys =>
      cases c with
      | nil => simp [pyListLE] at hbc
      | cons z zs =>
        simp only [pyListLE] at hab hbc ⊢
        rcases lt_trichotomy x y with h1 | h1 | h1
        · rcases lt_trichotomy y z with h2 | h2 | h2
          · simp [lt_trans h1 h2]
          · subst h2
            simp [h1]
          · rw [if_neg (lt_asymm h2), if_pos h2] at hbc
            cases hbc
        · subst h1
          rw [if_neg (lt_irrefl x), if_neg (lt_irrefl x)] at hab
          rcases lt_trichotomy x z with h2 | h2 | h2
          · simp [h2]
          · subst h2
            rw [if_neg (lt_irrefl x), if_neg (lt_irrefl x)] at hbc ⊢
            exact ih ys zs hab hbc
          · rw [if_neg (lt_asymm h2), if_pos h2] at hbc
            cases hbc
        · rw [if_neg (lt_asymm h1), if_pos h1] at hab
          cases hab

/-- The descending item comparison is total. -/
theorem item_ge_total : ∀ a b : Item, (item_ge a b || item_ge b a) = true := by
  intro a b
  simp only [item_ge]
  rcases lt_trichotomy (normalize_date a.pubDate) (normalize_date b.pubDate) with h | h | h
  · simp [h, lt_asymm h]
  · rw [h]
    simp only [lt_irrefl, if_false]
    exact pyListLE_total (chapter_num b.chaptername) (chapter_num a.chaptername)
  · simp [h, lt_asymm h]

/-- The descending item comparison is transitive. -/
theorem item_ge_trans : ∀ a b c : Item,
    item_ge a b = true → item_ge b c = true → item_ge a c = true := by
  intro a b c hab hbc
  simp only [item_ge] at hab hbc ⊢
  rcases lt_trichotomy (normalize_date b.pubDate) (normalize_date a.pubDate) with h1 | h1 | h1
  · rcases lt_trichotomy (normalize_date c.pubDate) (normalize_date b.pubDate) with h2 | h2 | h2
    · simp [lt_trans h2 h1]
    · rw [← h2] at h1
      simp [h1]
    · rw [if_neg (lt_asymm h2), if_pos h2] at hbc
      cases hbc
  · rw [← h1] at hab
    rw [if_neg (lt_irrefl _), if_neg (lt_irrefl _)] at hab
    rcases lt_trichotomy (normalize_date c.pubDate) (normalize_date b.pubDate) with h2 | h2 | h2
    · rw [h1] at h2
      simp [h2]
    · rw [h2] at hbc
      rw [if_neg (lt_irrefl _), if_neg (lt_irrefl _)] at hbc
      rw [h2, h1]
      rw [if_neg (lt_irrefl _), if_neg (lt_irrefl _)]
      exact pyListLE_trans _ _ _ hbc hab
    · rw [if_neg (lt_asymm h2), if_pos h2] at hbc
      cases hbc
  · rw [if_neg (lt_asymm h1), if_pos h1] at hab
    cases hab

/-- C4: the sorted item sequence of line 266 is non-increasing in the
composite key (timestamp truncated to whole seconds, numeric
chapter-label tuple), it is a permutation of the merged items, and
whenever two items share the truncated timestamp, the earlier one's
tuple is (lexicographically) at least the later one's — the larger tuple
precedes. -/
theorem aggregator_sort_descending_composite (items : List Item) :
    (sort_items items).Pairwise (fun a b => item_ge a b = true) ∧
    (sort_items items).Perm items ∧
    (sort_items items).Pairwise (fun a b =>
      normalize_date a.pubDate = normalize_date b.pubDate →
        pyListLE (chapter_num b.chaptername) (chapter_num a.chaptername) = true) := by
  have hs : (sort_items items).Pairwise (fun a b => item_ge a b = true) :=
    List.sorted_mergeSort item_ge_trans item_ge_total items
  refine ⟨hs, List.mergeSort_perm items item_ge, ?_⟩
  refine hs.imp ?_
  intro a b hab heq
  simp only [item_ge] at hab
  rw [heq] at hab
  rw [if_neg (lt_irrefl _), if_neg (lt_irrefl _)] at hab
  exact hab
